import Mathlib

/-!
Verification of the marketplace core of the ResSwaps repository: the
rate-limited bid placement pipeline, the listing lifecycle (buy-now,
accept-bid, bid-expiry sweep), the sale-history ledger and the market
statistics derived from it, and the domain-object / database-row
conversion pair.

Conventions of the embedding:
* timestamps are epoch milliseconds, modelled as `Int` (JS `Date.getTime()`);
* money amounts are modelled as `ℚ` (JS `number` under the exact arithmetic
  the code performs on them);
* a nullable / possibly-absent column or object field is an `Option`;
* each TypeScript function or SQL routine is translated into a pure Lean
  function of the same name; database writes become explicit state passing
  on a `Store` value; a write that the database rejects (NOT NULL
  violation) is an `Option`-valued step returning `none`.
-/

namespace ResSwaps

/-! ### Rate limiter (supabase/migrations/20250418230902_divine_temple.sql and src/lib/api.ts)

The `rate_limits` table, restricted to one (user_id, action_type) pair:
each row is its `expires_at` timestamp.  All functions below act on the
rows of that one pair, exactly as the SQL filters
`user_id = p_user_id AND action_type = p_action_type` do. -/

structure RLState where
  records : List Int
deriving Repr, DecidableEq

/-- SQL `check_rate_limit(p_user_id, p_action_type, p_max_attempts, p_window_seconds)`:
deletes the expired rows (`expires_at < now()`), counts the live rows
(`expires_at > now()`), and returns whether the count is strictly below
`p_max_attempts`.  The purge is a side effect, so the resulting state is
returned as well. -/
def check_rate_limit (now : Int) (maxAttempts : Nat) (st : RLState) : RLState × Bool :=
  let kept := st.records.filter (fun e => !decide (e < now))
  let attemptCount := (kept.filter (fun e => decide (now < e))).length
  (⟨kept⟩, decide (attemptCount < maxAttempts))

/-- SQL `record_rate_limit_attempt(p_user_id, p_action_type, p_window_seconds)`:
inserts a row with `expires_at = now() + p_window_seconds`.  `windowMs` is
the window already converted to milliseconds. -/
def record_rate_limit_attempt (now windowMs : Int) (st : RLState) : RLState :=
  ⟨st.records ++ [now + windowMs]⟩

/-- SQL trigger function `enforce_bid_rate_limit()` (BEFORE INSERT ON bids):
`max_bids_per_window = 5`, `window_seconds = 300`.  If `check_rate_limit`
fails it raises (the insert is rejected, result `false`); otherwise it
records the attempt and lets the insert proceed (result `true`). -/
def enforce_bid_rate_limit (now : Int) (st : RLState) : RLState × Bool :=
  let checked := check_rate_limit now 5 st
  if checked.2 then (record_rate_limit_attempt now (300 * 1000) checked.1, true)
  else (checked.1, false)

/-- Exact integer form of JavaScript `Math.ceil(d / 1000)` for an integer
millisecond difference `d`. -/
def ceilSeconds (d : Int) : Int :=
  -((-d) / 1000)

/-- Insertion into a descending-sorted list (used to model the query clause
`order by expires_at descending`). -/
def insertDesc (x : Int) : List Int → List Int
  | [] => [x]
  | y :: ys => if y < x then x :: y :: ys else y :: insertDesc x ys

/-- A descending sort, modelling `order by expires_at descending`. -/
def sortDesc : List Int → List Int
  | [] => []
  | x :: xs => insertDesc x (sortDesc xs)

/-- The rate-limit query issued by `api.bids.create` and `api.bids.getRateLimit`
(src/lib/api.ts): rows of the (user, place_bid) pair with
`expires_at > now`, ordered by `expires_at` descending, limited to 1. -/
def apiRateLimitQuery (now : Int) (st : RLState) : List Int :=
  (sortDesc (st.records.filter (fun e => decide (now < e)))).take 1

/-- The client-side rate-limit gate at the top of `api.bids.create`
(src/lib/api.ts, lines 124-148): if the query returns any row, the call
throws the rate-limited `AppError` carrying
`retryAfter = Math.ceil((expiresAt - now) / 1000)` computed from that row;
`some retryAfter` models the thrown error, `none` means the gate passes. -/
def apiBidsCreateGate (now : Int) (st : RLState) : Option Int :=
  match apiRateLimitQuery now st with
  | [] => none
  | e :: _ => some (ceilSeconds (e - now))

/-- The full rate-limiting pipeline of one `api.bids.create` call: the
client-side gate, then (only if it passes) the database insert, whose
BEFORE INSERT trigger runs `enforce_bid_rate_limit`.  Result `true` means
the attempt was admitted to bid validation / insertion. -/
def apiBidsCreate (now : Int) (st : RLState) : RLState × Bool :=
  match apiBidsCreateGate now st with
  | some _ => (st, false)
  | none => enforce_bid_rate_limit now st

/-- `n` rapid direct bid inserts (the UI paths insert into `bids` directly,
so only the trigger gates them), all at the same instant, starting from an
empty window; returns the final state and the number of admitted attempts. -/
def runTriggerAttempts (now : Int) : Nat → RLState × Nat
  | 0 => (⟨[]⟩, 0)
  | n + 1 =>
    let prev := runTriggerAttempts now n
    let step := enforce_bid_rate_limit now prev.1
    (step.1, if step.2 then prev.2 + 1 else prev.2)

/-- `n` rapid `api.bids.create` calls, all at the same instant, starting
from an empty window; returns the final state and the number of admitted
attempts. -/
def runApiAttempts (now : Int) : Nat → RLState × Nat
  | 0 => (⟨[]⟩, 0)
  | n + 1 =>
    let prev := runApiAttempts now n
    let step := apiBidsCreate now prev.1
    (step.1, if step.2 then prev.2 + 1 else prev.2)

/-! ### Data model: listings, bids, sale-history ledger

Translated from the `Reservation` interface and the table row types in
`src/types/supabase.ts`: `reservations`, `bids`, `reservation_history`.
Only the columns the marketplace core touches are kept; display-only
columns (restaurant name, cuisine, ...) are irrelevant to these claims
and omitted from the `Store` (they reappear in the conversion-pair model
below, which is about exactly those fields). -/

inductive ListingStatus
  | available
  | pending
  | sold
  | expired
deriving Repr, DecidableEq

inductive BidStatus
  | open_
  | accepted
  | rejected
  | expired
deriving Repr, DecidableEq

structure Listing where
  id : String
  price : ℚ
  sellerId : String
  status : ListingStatus
  allowBidding : Option Bool
  minimumBid : Option ℚ
  currentBid : Option ℚ
  bidEndTime : Option Int
  stockRemaining : Option Int
  lastSalePrice : Option ℚ
  lastSaleDate : Option Int
deriving Repr, DecidableEq

/-- A row of the `bids` table.  `expiresAt` and `status` are `Option`s:
the insert in the reservation context's `placeBid` supplies neither,
while the insert in `ReservationDetailPage.handlePlaceBid` supplies both
(the row types in `src/types/supabase.ts` list neither column, so a value
is present exactly when an insert wrote one). -/
structure Bid where
  id : String
  reservationId : String
  userId : String
  amount : ℚ
  createdAt : Int
  expiresAt : Option Int
  status : Option BidStatus
deriving Repr, DecidableEq

/-- A row of the `reservation_history` table.  Per `src/types/supabase.ts`
the `price` column is NOT NULL (`price : number` in both `Row` and
`Insert`), so it is the one `Option` field whose absence an insert cannot
survive. -/
structure SaleRecord where
  reservationId : String
  buyerId : Option String
  buyerName : Option String
  price : Option ℚ
  createdAt : Int
deriving Repr, DecidableEq

structure Store where
  listings : List Listing
  bids : List Bid
  history : List SaleRecord
deriving Repr, DecidableEq

/-- Fetch a reservation row by id (`.eq('id', id).single()` or the local
`reservations.find(r => r.id === id)` — both resolve to the first row with
the given id). -/
def getListing (st : Store) (lid : String) : Option Listing :=
  st.listings.find? (fun l => l.id == lid)

/-- An UPDATE on `reservations`: applies `f` to every row matching `p`
(the embedding keeps the SQL semantics of updating all matching rows). -/
def updateListings (st : Store) (p : Listing → Bool) (f : Listing → Listing) : Store :=
  { st with listings := st.listings.map (fun l => if p l then f l else l) }

/-- An INSERT into `reservation_history`.  The table's `price` column is
NOT NULL (src/types/supabase.ts), so an insert whose record carries no
price is rejected by the database: `none`. -/
def insertHistory (st : Store) (r : SaleRecord) : Option Store :=
  match r.price with
  | none => none
  | some _ => some { st with history := st.history ++ [r] }

/-- The open bids of a listing, as fetched by `ReservationDetailPage`
(`.eq('reservation_id', id).eq('status', 'open')`). -/
def openBidsFor (st : Store) (lid : String) : List Bid :=
  st.bids.filter (fun b => b.reservationId == lid && b.status == some BidStatus.open_)

/-- First element of the amount-descending ordering of a bid list ---
`bids[0]` after `order by amount descending` --- i.e. a maximal-amount
bid (the earliest listed one on ties). -/
def maxBidOf : List Bid → Option Bid
  | [] => none
  | b :: rest =>
    match maxBidOf rest with
    | none => some b
    | some c => if b.amount < c.amount then some c else some b

/-! ### Reservation context operations (src/unnamed/part_000)

`placeBid` and `buyNow` of the `ReservationProvider`.  Each issues plain
sequential database writes (no transaction), so each write is a separate
step of the embedding.  JavaScript coercions: `reservation.minimumBid || 0`
and `reservation.currentBid || 0` and `reservation.stockRemaining || 0`
all collapse an absent (or zero) value to `0`, which `Option.getD 0`
reproduces, `0` being sent to `0` either way; `!reservation.allowBidding`
is true unless the field is present and `true`. -/

/-- Context `placeBid(id, amount)` (src/unnamed/part_000, lines 324-366).
`newId` stands for the row id the database generates for the inserted bid.
Returns the store after whatever writes happened plus the boolean result.
The bid row is inserted first, then `reservations.current_bid` is updated.
The inserted row carries neither an `expires_at` nor a `status` value.
(The database-side rate-limit trigger on this insert is modelled
separately on `RLState`; here the insert itself is in view.) -/
def placeBid (now : Int) (newId userId : String) (st : Store) (lid : String)
    (amount : ℚ) : Store × Bool :=
  match getListing st lid with
  | none => (st, false)
  | some l =>
    if !(l.allowBidding == some true) then (st, false)
    else if amount < l.minimumBid.getD 0 ∨ amount ≤ l.currentBid.getD 0 then (st, false)
    else
      let st1 : Store :=
        { st with bids := st.bids ++ [⟨newId, lid, userId, amount, now, none, none⟩] }
      let st2 := updateListings st1 (fun x => x.id == lid)
        (fun x => { x with currentBid := some amount })
      (st2, true)

/-- First write of context `buyNow` (src/unnamed/part_000, lines 384-392):
UPDATE reservations SET stock_remaining, status, last_sale_price,
last_sale_date WHERE id = lid, with the values computed from the fetched
reservation `l`. -/
def buyNowListingUpdate (now : Int) (st : Store) (lid : String) (l : Listing)
    (newStock : Int) : Store :=
  updateListings st (fun x => x.id == lid) (fun x =>
    { x with
      stockRemaining := some newStock,
      status := if newStock = 0 then ListingStatus.sold else ListingStatus.available,
      lastSalePrice := some l.price,
      lastSaleDate := some now })

/-- Context `buyNow(id)` (src/unnamed/part_000, lines 368-420).  Despite
its `// Begin transaction` comment the function issues two separate
awaited writes: the reservation update (`buyNowListingUpdate`), then the
`reservation_history` insert.  The boolean is its returned success flag;
the returned store is the state after whatever writes committed. -/
def buyNow (now : Int) (buyerId buyerName : String) (st : Store) (lid : String) :
    Store × Bool :=
  match getListing st lid with
  | none => (st, false)
  | some l =>
    let newStock := l.stockRemaining.getD 0 - 1
    if newStock < 0 then (st, false)
    else
      let st1 := buyNowListingUpdate now st lid l newStock
      match insertHistory st1 ⟨lid, some buyerId, some buyerName, some l.price, now⟩ with
      | none => (st1, false)
      | some st2 => (st2, true)

/-! ### Detail-page operations (src/pages/ReservationDetailPage.tsx) -/

/-- Page `handlePlaceBid` (src/pages/ReservationDetailPage.tsx, lines
214-256): rejects a non-positive amount, rejects an amount not strictly
above the highest fetched open bid (`bids[0].amount`, or `0` with no open
bids), then inserts a bid row with `status = 'open'` and
`expires_at = now + expiryDays` days.  It performs no write to the
`reservations` row (the page only refreshes its view via the realtime
subscription). -/
def handlePlaceBid (now : Int) (newId userId : String) (st : Store) (lid : String)
    (amount : ℚ) (expiryDays : Int) : Store × Bool :=
  if amount ≤ 0 then (st, false)
  else
    let highestBid :=
      match maxBidOf (openBidsFor st lid) with
      | some b => b.amount
      | none => 0
    if amount ≤ highestBid then (st, false)
    else
      ({ st with bids := st.bids ++
          [⟨newId, lid, userId, amount, now, some (now + expiryDays * 86400000),
            some BidStatus.open_⟩] }, true)

/-- Page `handleBuyNow` (src/pages/ReservationDetailPage.tsx, lines
296-334).  Steps in source order: return silently when the reservation
is missing; INSERT into `reservation_history` a record with the buyer's
id and name — and no `price` value, which the NOT NULL `price` column
(src/types/supabase.ts) rejects, aborting the operation in the `catch`
branch with nothing written; (only if that insert succeeded) UPDATE
reservations SET status = sold WHERE id = lid — unconditionally: no
stock check, no stock decrement, no `last_sale_price`/`last_sale_date`. -/
def handleBuyNow (now : Int) (buyerId buyerName : String) (st : Store) (lid : String) :
    Store × Bool :=
  match getListing st lid with
  | none => (st, false)
  | some _ =>
    match insertHistory st ⟨lid, some buyerId, some buyerName, none, now⟩ with
    | none => (st, false)
    | some st1 =>
      let st2 := updateListings st1 (fun x => x.id == lid)
        (fun x => { x with status := ListingStatus.sold })
      (st2, true)

/-- Page `handleSellNow` (src/pages/ReservationDetailPage.tsx, lines
336-392), the accept-bid operation.  Steps in source order:
1. return silently when the reservation is missing or it has no open bids;
2. INSERT into `reservation_history` a record with `buyer_id` of the
   highest bid and `buyer_name = 'Bid Accepted'` — and no `price` value,
   which the NOT NULL `price` column rejects, aborting the operation
   (the `catch` branch, result `false`, nothing written);
3. (only if the insert succeeded) UPDATE reservations SET status = sold,
   price = highest.amount WHERE id = lid AND seller_id = caller — an
   update matching zero rows reports no error, so a non-owner caller
   falls through;
4. UPDATE bids SET status = accepted WHERE id = highest.id. -/
def handleSellNow (now : Int) (callerId : String) (st : Store) (lid : String) :
    Store × Bool :=
  match getListing st lid with
  | none => (st, false)
  | some _ =>
    match maxBidOf (openBidsFor st lid) with
    | none => (st, false)
    | some highest =>
      match insertHistory st ⟨lid, some highest.userId, some "Bid Accepted", none, now⟩ with
      | none => (st, false)
      | some st1 =>
        let st2 := updateListings st1 (fun x => x.id == lid && x.sellerId == callerId)
          (fun x => { x with status := ListingStatus.sold, price := highest.amount })
        let st3 : Store :=
          { st2 with bids := st2.bids.map (fun b =>
              if b.id == highest.id then { b with status := some BidStatus.accepted } else b) }
        (st3, true)

/-! ### Bid-expiry sweep (supabase/migrations/20250418231036_rough_moon.sql) -/

/-- SQL condition `NEW.bid_end_time < NOW()`: with a NULL `bid_end_time`
the comparison is NULL, hence not satisfied. -/
def bidEndPassed (now : Int) (l : Listing) : Bool :=
  match l.bidEndTime with
  | some t => decide (t < now)
  | none => false

/-- SQL trigger function `handle_bid_expiration()` (BEFORE UPDATE ON
reservations): when the bid deadline has passed on an `available` listing
with `allow_bidding = true`, set status to `pending` when a
`current_bid` is present and to `expired` otherwise; on any other row do
nothing. -/
def handle_bid_expiration (now : Int) (l : Listing) : Listing :=
  if bidEndPassed now l && decide (l.status = ListingStatus.available)
      && (l.allowBidding == some true) then
    if l.currentBid.isSome then { l with status := ListingStatus.pending }
    else { l with status := ListingStatus.expired }
  else l

/-! ### Market statistics (src/pages/ReservationDetailPage.tsx, fetchReservation) -/

/-- A fetched `reservation_history` row as `fetchReservation` selects it:
`id, reservation_id, created_at, reservation:reservation_id(price)`.
`storedPrice` is the row's own NOT NULL `price` column (which the query
does NOT select); `joinedListingPrice` is the parent reservation's current
`price` delivered by the join. -/
structure SaleRow where
  id : String
  reservationId : String
  createdAt : Int
  storedPrice : ℚ
deriving Repr, DecidableEq

structure MarketStats where
  lastSalePrice : Option ℚ
  thirtyDayAvg : Option ℚ
  highPrice : Option ℚ
  lowPrice : Option ℚ
  salesCount : Nat
deriving Repr, DecidableEq

/-- The page's initial `marketStats` state, kept when there are no sales. -/
def initialStats : MarketStats :=
  ⟨none, none, none, none, 0⟩

/-- JavaScript `Math.max(...prices)` over a price list (`none` only for an
empty list, which the code never reaches). -/
def mathMax : List ℚ → Option ℚ
  | [] => none
  | x :: xs => some (xs.foldl max x)

/-- JavaScript `Math.min(...prices)` over a price list. -/
def mathMin : List ℚ → Option ℚ
  | [] => none
  | x :: xs => some (xs.foldl min x)

/-- The market-stats computation of `fetchReservation`
(src/pages/ReservationDetailPage.tsx, lines 142-182).  `sales` is the
query result, ordered by `created_at` descending; `listingPrice` is the
reservation's current price.  Each formatted sale's `price` is
`sale.reservation.price` — the JOINED current listing price, not the
row's own stored price.  With no sales the initial stats stand.
`thirtyDaysAgo` is `now` minus 30 days. -/
def computeStatsPage (now : Int) (listingPrice : ℚ) (sales : List SaleRow) : MarketStats :=
  if sales.isEmpty then initialStats
  else
    let prices : List ℚ := sales.map (fun _ => listingPrice)
    let thirtyDaysAgo : Int := now - 30 * 86400000
    let thirtyDayPrices : List ℚ :=
      (sales.filter (fun s => decide (thirtyDaysAgo ≤ s.createdAt))).map
        (fun _ => listingPrice)
    { lastSalePrice := prices.head?,
      thirtyDayAvg :=
        if thirtyDayPrices.length ≠ 0 then
          some (thirtyDayPrices.sum / (thirtyDayPrices.length : ℚ))
        else none,
      highPrice := mathMax prices,
      lowPrice := mathMin prices,
      salesCount := sales.length }

/-- Modelled from the spec: `computeMarketStats(listingId)` over the
listing's sale-history record set itself — `lastSalePrice` the price of
the most recent record (the head of the `created_at`-descending list),
`thirtyDayAvg` the arithmetic mean of the prices of records with
`executedAt >= now - 30 days` (null when none), `highPrice` / `lowPrice`
the maximum / minimum price over all records, `salesCount` the record
count.  Stated for comparison with `computeStatsPage`. -/
def computeMarketStatsSpec (now : Int) (sales : List SaleRow) : MarketStats :=
  if sales.isEmpty then initialStats
  else
    let prices : List ℚ := sales.map (fun s => s.storedPrice)
    let thirtyDaysAgo : Int := now - 30 * 86400000
    let thirtyDayPrices : List ℚ :=
      (sales.filter (fun s => decide (thirtyDaysAgo ≤ s.createdAt))).map
        (fun s => s.storedPrice)
    { lastSalePrice := prices.head?,
      thirtyDayAvg :=
        if thirtyDayPrices.length ≠ 0 then
          some (thirtyDayPrices.sum / (thirtyDayPrices.length : ℚ))
        else none,
      highPrice := mathMax prices,
      lowPrice := mathMin prices,
      salesCount := sales.length }

/-! ### Conversion pair (src/unnamed/part_000, formatReservationFromDB /
formatReservationToDB)

The claim concerns the fields the pair maps, so the structures carry
exactly those fields.  Every field is an `Option`: `formatReservationToDB`
takes a `Partial<Reservation>` and copies each field only when it is
defined, and a database row can lack any column.  Dates are epoch
milliseconds; `date.toISOString()` followed by `new Date(isoString)`
restores the same instant, so the pair of conversions is the identity on
the millisecond value and is embedded as such.  The `status` string cast
`as ReservationStatus` is likewise the identity.  (`id`, `sellerName` and
the mock `marketData` of `formatReservationFromDB` are outside the mapped
field set and outside this model.) -/

structure ReservationFields where
  restaurantName : Option String
  location : Option String
  cuisine : Option String
  date : Option Int
  time : Option String
  partySize : Option Int
  price : Option ℚ
  originalPrice : Option ℚ
  sellerId : Option String
  status : Option ListingStatus
  description : Option String
  imageUrl : Option String
  popularity : Option Int
  allowBidding : Option Bool
  minimumBid : Option ℚ
  currentBid : Option ℚ
  bidEndTime : Option Int
  stockRemaining : Option Int
  lastSalePrice : Option ℚ
  lastSaleDate : Option Int
  latitude : Option ℚ
  longitude : Option ℚ
deriving Repr, DecidableEq

structure DBReservationRow where
  restaurant_name : Option String
  location : Option String
  cuisine : Option String
  date : Option Int
  time : Option String
  party_size : Option Int
  price : Option ℚ
  original_price : Option ℚ
  seller_id : Option String
  status : Option ListingStatus
  description : Option String
  image_url : Option String
  popularity : Option Int
  allow_bidding : Option Bool
  minimum_bid : Option ℚ
  current_bid : Option ℚ
  bid_end_time : Option Int
  stock_remaining : Option Int
  last_sale_price : Option ℚ
  last_sale_date : Option Int
  latitude : Option ℚ
  longitude : Option ℚ
deriving Repr, DecidableEq

/-- `formatReservationToDB` (src/unnamed/part_000, lines 182-209): each
field is written to the row object exactly when it is defined
(`!== undefined`); the three date fields are serialized
(`.toISOString()`, the identity on the underlying instant). -/
def formatReservationToDB (r : ReservationFields) : DBReservationRow :=
  { restaurant_name := r.restaurantName,
    location := r.location,
    cuisine := r.cuisine,
    date := r.date,
    time := r.time,
    party_size := r.partySize,
    price := r.price,
    original_price := r.originalPrice,
    seller_id := r.sellerId,
    status := r.status,
    description := r.description,
    image_url := r.imageUrl,
    popularity := r.popularity,
    allow_bidding := r.allowBidding,
    minimum_bid := r.minimumBid,
    current_bid := r.currentBid,
    bid_end_time := r.bidEndTime,
    stock_remaining := r.stockRemaining,
    last_sale_price := r.lastSalePrice,
    last_sale_date := r.lastSaleDate,
    latitude := r.latitude,
    longitude := r.longitude }

/-- `formatReservationFromDB` (src/unnamed/part_000, lines 141-180)
restricted to the mapped fields: each camelCase field reads its
snake_case column; `bid_end_time` and `last_sale_date` go through
`value ? new Date(value) : undefined`, `date` through `new Date(·)`
(with an absent column this yields an invalid date, represented here by
the absent value), `status` through the identity cast. -/
def formatReservationFromDB (db : DBReservationRow) : ReservationFields :=
  { restaurantName := db.restaurant_name,
    location := db.location,
    cuisine := db.cuisine,
    date := db.date,
    time := db.time,
    partySize := db.party_size,
    price := db.price,
    originalPrice := db.original_price,
    sellerId := db.seller_id,
    status := db.status,
    description := db.description,
    imageUrl := db.image_url,
    popularity := db.popularity,
    allowBidding := db.allow_bidding,
    minimumBid := db.minimum_bid,
    currentBid := db.current_bid,
    bidEndTime := db.bid_end_time,
    stockRemaining := db.stock_remaining,
    lastSalePrice := db.last_sale_price,
    lastSaleDate := db.last_sale_date,
    latitude := db.latitude,
    longitude := db.longitude }

/-! ### Lemmas about the rate limiter -/

lemma filter_replicate_of_pos {p : Int → Bool} {a : Int} (h : p a = true) (n : Nat) :
    (List.replicate n a).filter p = List.replicate n a := by
  induction n with
  | zero => simp
  | succ n ih => simp [List.replicate_succ, List.filter_cons, h, ih]

/-- One trigger step on a window of `k` identical live records. -/
lemma enforce_on_replicate (now : Int) (k : Nat) :
    enforce_bid_rate_limit now ⟨List.replicate k (now + 300 * 1000)⟩ =
      if k < 5 then (⟨List.replicate (k + 1) (now + 300 * 1000)⟩, true)
      else (⟨List.replicate k (now + 300 * 1000)⟩, false) := by
  have h1 : (!decide (now + 300 * 1000 < now)) = true := by
    simp only [Bool.not_eq_true', decide_eq_false_iff_not, not_lt]
    omega
  have h2 : decide (now < now + 300 * 1000) = true := by
    simp only [decide_eq_true_eq]
    omega
  have e1 : (List.replicate k (now + 300 * 1000)).filter (fun e => !decide (e < now)) =
      List.replicate k (now + 300 * 1000) :=
    filter_replicate_of_pos h1 k
  have e2 : (List.replicate k (now + 300 * 1000)).filter (fun e => decide (now < e)) =
      List.replicate k (now + 300 * 1000) :=
    filter_replicate_of_pos h2 k
  unfold enforce_bid_rate_limit check_rate_limit record_rate_limit_attempt
  simp only [e1, e2, List.length_replicate]
  by_cases hk : k < 5
  · simp [hk, List.replicate_succ' (n := k)]
  · simp [hk]

lemma runTriggerAttempts_spec (now : Int) (n : Nat) :
    runTriggerAttempts now n =
      (⟨List.replicate (min n 5) (now + 300 * 1000)⟩, min n 5) := by
  induction n with
  | zero => simp [runTriggerAttempts]
  | succ n ih =>
    rw [runTriggerAttempts, ih]
    simp only [enforce_on_replicate]
    by_cases hn : min n 5 < 5
    · have h5 : n < 5 := by omega
      have : min (n + 1) 5 = min n 5 + 1 := by omega
      simp [hn, this]
    · have : min (n + 1) 5 = min n 5 := by omega
      simp [hn, this]

lemma apiBidsCreate_empty (now : Int) :
    apiBidsCreate now ⟨[]⟩ = (⟨[now + 300 * 1000]⟩, true) :=
  rfl

lemma apiBidsCreate_on_one_record (now : Int) :
    apiBidsCreate now ⟨[now + 300 * 1000]⟩ = (⟨[now + 300 * 1000]⟩, false) := by
  have h2 : decide (now < now + 300 * 1000) = true := by
    simp only [decide_eq_true_eq]
    omega
  unfold apiBidsCreate apiBidsCreateGate apiRateLimitQuery
  simp [List.filter_cons, h2, sortDesc, insertDesc]

lemma runApiAttempts_spec (now : Int) (n : Nat) (h : 1 ≤ n) :
    runApiAttempts now n = (⟨[now + 300 * 1000]⟩, 1) := by
  induction n with
  | zero => omega
  | succ n ih =>
    rcases Nat.eq_or_lt_of_le h with h0 | h1
    · have hn : n = 0 := by omega
      subst hn
      rfl
    · rw [runApiAttempts, ih (by omega)]
      simp only [apiBidsCreate_on_one_record]
      rfl

/-- C1: RATE LIMIT CEILING — corrected.  What holds: (a) the database
trigger path (the one the UI's direct bid inserts take) admits exactly
`min n 5` of `n` same-instant attempts in a fresh window, so
`maxAttempts + 1` attempts see exactly `maxAttempts = 5` admitted; (b) on
a window already holding 5 live records every further trigger-gated
attempt is rejected; (c) the `api.bids.create` path, whose client gate
rejects whenever ANY live `rate_limits` record exists, admits exactly one
attempt per window no matter how many are issued — so on that path a user
with fewer than 5 bids in the window IS rate-limited, contrary to the
claim as stated (see the counterexample). -/
theorem c1_rate_limit_ceiling :
    (∀ (now : Int) (n : Nat), (runTriggerAttempts now n).2 = min n 5) ∧
    (∀ (now : Int) (n : Nat), 5 ≤ n →
      (enforce_bid_rate_limit now (runTriggerAttempts now n).1).2 = false) ∧
    (∀ (now : Int) (n : Nat), 1 ≤ n → (runApiAttempts now n).2 = 1) := by
  refine ⟨?_, ?_, ?_⟩
  · intro now n
    rw [runTriggerAttempts_spec]
  · intro now n hn
    rw [runTriggerAttempts_spec]
    have : min n 5 = 5 := by omega
    rw [this, enforce_on_replicate]
    simp
  · intro now n hn
    rw [runApiAttempts_spec now n hn]

/-- Witness for `c1_rate_limit_ceiling` at `now = 0`, `n = 6`. -/
theorem c1_rate_limit_ceiling_witness :
    (runTriggerAttempts 0 6).2 = min 6 5 ∧
    (enforce_bid_rate_limit 0 (runTriggerAttempts 0 6).1).2 = false ∧
    (runApiAttempts 0 6).2 = 1 :=
  ⟨c1_rate_limit_ceiling.1 0 6, c1_rate_limit_ceiling.2.1 0 6 (by decide),
    c1_rate_limit_ceiling.2.2 0 6 (by decide)⟩

/-- C1 counterexample: through `api.bids.create`, six same-window
attempts admit exactly 1 bid, not `maxAttempts = 5`; in particular after
a single admitted bid (fewer than 5 in the window) the very next
`api.bids.create` call is already rejected by the rate limiter. -/
theorem c1_rate_limit_ceiling_counterexample :
    (runApiAttempts 0 6).2 = 1 ∧ (1 : Nat) ≠ 5 ∧
    (runApiAttempts 0 1).2 = 1 ∧
    (apiBidsCreate 0 (runApiAttempts 0 1).1).2 = false := by
  decide

/-! ### Lemmas about the descending ordering of the api query -/

lemma mem_insertDesc {a x : Int} {l : List Int} :
    a ∈ insertDesc x l ↔ a = x ∨ a ∈ l := by
  induction l with
  | nil => simp [insertDesc]
  | cons y ys ih =>
    unfold insertDesc
    split
    · simp [List.mem_cons]
    · simp [List.mem_cons, ih]
      tauto

lemma mem_sortDesc {a : Int} {l : List Int} : a ∈ sortDesc l ↔ a ∈ l := by
  induction l with
  | nil => simp [sortDesc]
  | cons x xs ih => simp [sortDesc, mem_insertDesc, ih]

lemma sorted_insertDesc (x : Int) {l : List Int} (h : l.Sorted (· ≥ ·)) :
    (insertDesc x l).Sorted (· ≥ ·) := by
  induction l with
  | nil => simp [insertDesc]
  | cons y ys ih =>
    rw [List.sorted_cons] at h
    unfold insertDesc
    split
    case isTrue hyx =>
      rw [List.sorted_cons]
      constructor
      · intro b hb
        rcases List.mem_cons.mp hb with rfl | hb
        · exact le_of_lt hyx
        · exact le_trans (h.1 b hb) (le_of_lt hyx)
      · rw [List.sorted_cons]
        exact h
    case isFalse hyx =>
      rw [List.sorted_cons]
      refine ⟨?_, ih h.2⟩
      intro b hb
      rcases mem_insertDesc.mp hb with rfl | hb
      · exact not_lt.mp hyx
      · exact h.1 b hb

lemma sorted_sortDesc (l : List Int) : (sortDesc l).Sorted (· ≥ ·) := by
  induction l with
  | nil => simp [sortDesc]
  | cons x xs ih => exact sorted_insertDesc x ih

/-- Modelled from the spec: the remaining seconds until the OLDEST
currently-blocking rate-limit record expires — the value §4.1 of the spec
says a blocked caller receives.  Stated for comparison with
`apiBidsCreateGate`, which the source computes from the newest record. -/
def specOldestRemainingSeconds (now : Int) (st : RLState) : Option Int :=
  match (st.records.filter (fun e => decide (now < e))).min? with
  | none => none
  | some e => some (ceilSeconds (e - now))

/-- C7: RATE-LIMITED ERROR PAYLOAD — corrected.  When the
`api.bids.create` gate blocks, the thrown error's `retryAfter` is the
ceiling-rounded number of seconds until some blocking record `m` expires,
where `m` dominates every blocking record — i.e. the NEWEST
(latest-expiring) record, not the oldest one the claim names — and the
value is positive. -/
theorem c7_retry_after_from_newest (now : Int) (st : RLState) (r : Int)
    (h : apiBidsCreateGate now st = some r) :
    ∃ m ∈ st.records, now < m ∧ r = ceilSeconds (m - now) ∧
      (∀ a ∈ st.records, now < a → a ≤ m) ∧ 1 ≤ r := by
  unfold apiBidsCreateGate apiRateLimitQuery at h
  rcases hsd : sortDesc (st.records.filter (fun e => decide (now < e))) with _ | ⟨m, rest⟩
  · rw [hsd] at h
    simp [List.take] at h
  · rw [hsd] at h
    simp only [List.take_succ_cons, List.take_zero] at h
    have hr : r = ceilSeconds (m - now) := by
      cases h
      rfl
    have hmem : m ∈ st.records.filter (fun e => decide (now < e)) := by
      rw [← mem_sortDesc, hsd]
      exact List.mem_cons_self m rest
    have hm : m ∈ st.records ∧ decide (now < m) = true := List.mem_filter.mp hmem
    have hnow : now < m := of_decide_eq_true hm.2
    refine ⟨m, hm.1, hnow, hr, ?_, ?_⟩
    · intro a ha hna
      have haf : a ∈ st.records.filter (fun e => decide (now < e)) :=
        List.mem_filter.mpr ⟨ha, decide_eq_true hna⟩
      rw [← mem_sortDesc, hsd] at haf
      rcases List.mem_cons.mp haf with rfl | haf
      · exact le_refl a
      · have hsort := sorted_sortDesc (st.records.filter (fun e => decide (now < e)))
        rw [hsd] at hsort
        exact List.rel_of_sorted_cons hsort a haf
    · rw [hr]
      unfold ceilSeconds
      omega

/-- Witness for `c7_retry_after_from_newest`: a single record expiring
10 000 ms after `now = 0` yields `retryAfter = 10`. -/
theorem c7_retry_after_from_newest_witness :
    ∃ m ∈ (⟨[10000]⟩ : RLState).records, (0 : Int) < m ∧ (10 : Int) = ceilSeconds (m - 0) ∧
      (∀ a ∈ (⟨[10000]⟩ : RLState).records, (0 : Int) < a → a ≤ m) ∧ (1 : Int) ≤ 10 :=
  c7_retry_after_from_newest 0 ⟨[10000]⟩ 10 (by decide)

/-- C7 counterexample: with two blocking records expiring 10 s and 250 s
from now, the gate reports 250 s (the newest record), while the spec's
oldest-blocking-record reading demands 10 s. -/
theorem c7_retry_after_counterexample :
    apiBidsCreateGate 0 ⟨[10000, 250000]⟩ = some 250 ∧
    specOldestRemainingSeconds 0 ⟨[10000, 250000]⟩ = some 10 ∧
    (250 : Int) ≠ 10 := by
  decide

/-! ### The expiry sweep is idempotent (C8) -/

/-- C8: IDEMPOTENT SWEEP — confirmed.  Applying the
`handle_bid_expiration` trigger transition twice at the same instant
produces exactly the state of applying it once: the first application
either leaves the listing alone or moves its status off `available`, and
the transition only fires on `available` listings, so the second
application changes nothing and re-fires no side effect. -/
theorem c8_sweep_idempotent (now : Int) (l : Listing) :
    handle_bid_expiration now (handle_bid_expiration now l) =
      handle_bid_expiration now l := by
  by_cases h : (bidEndPassed now l && decide (l.status = ListingStatus.available)
      && (l.allowBidding == some true)) = true
  · by_cases hb : l.currentBid.isSome = true
    · have hinner : handle_bid_expiration now l =
          { l with status := ListingStatus.pending } := by
        unfold handle_bid_expiration
        rw [if_pos h, if_pos hb]
      rw [hinner]
      unfold handle_bid_expiration
      rw [if_neg (by simp)]
    · have hinner : handle_bid_expiration now l =
          { l with status := ListingStatus.expired } := by
        unfold handle_bid_expiration
        rw [if_pos h, if_neg hb]
      rw [hinner]
      unfold handle_bid_expiration
      rw [if_neg (by simp)]
  · have hinner : handle_bid_expiration now l = l := by
      unfold handle_bid_expiration
      rw [if_neg h]
    rw [hinner]
    exact hinner

/-! ### Accept-bid (C2) -/

def c2Listing : Listing :=
  ⟨"L1", 120, "seller1", ListingStatus.available, some true, some 100, some 150, none,
    some 1, none, none⟩

def c2Bid : Bid :=
  ⟨"B1", "L1", "buyer1", 150, 0, some 604800000, some BidStatus.open_⟩

def c2Store : Store :=
  ⟨[c2Listing], [c2Bid], []⟩

/-- C2: ACCEPT-BID — code_bug evaluation.  On a listing owned by
"seller1" carrying one open bid of 150, `handleSellNow` fails for the
owning seller exactly as for an intruder: its very first write — the
`reservation_history` insert — omits the NOT NULL `price` column
(src/types/supabase.ts declares `price : number` in both `Row` and
`Insert`), so the insert is rejected, the `catch` branch returns, and no
state changes: the listing stays `available` (never `sold` at the bid
amount), the bid stays `open` (never `accepted`), and no sale-history
record with the bid's amount is appended, contrary to the claim's
success behaviour.  (Even past that insert, the seller check cannot
reject a non-owner: the UPDATE filtered by `seller_id` merely matches
zero rows, which reports no error.) -/
theorem c2_accept_bid_never_commits :
    handleSellNow 1000 "seller1" c2Store "L1" = (c2Store, false) ∧
    handleSellNow 1000 "intruder" c2Store "L1" = (c2Store, false) ∧
    (getListing c2Store "L1").map Listing.status = some ListingStatus.available ∧
    c2Store.history = [] ∧
    c2Store.bids.map Bid.status = [some BidStatus.open_] := by
  decide

/-! ### Buy-now is not transactional (C6) -/

def c6Listing : Listing :=
  ⟨"L1", 50, "seller1", ListingStatus.available, some false, none, none, none,
    some 1, none, none⟩

def c6Store : Store :=
  ⟨[c6Listing], [], []⟩

/-- C6: SALE ATOMICITY — code_bug evaluation.  The context `buyNow`
issues its two writes as separate sequential requests (its own
`// Begin transaction` comment notwithstanding): after the first write
(`buyNowListingUpdate`) and before the history insert, the store is
observable with the listing already `sold` and no `reservation_history`
record for it; only the second write appends the record.  A failure of
the second write would leave that intermediate state permanent. -/
theorem c6_sale_not_atomic :
    (getListing (buyNowListingUpdate 500 c6Store "L1" c6Listing 0) "L1").map
        Listing.status = some ListingStatus.sold ∧
    (buyNowListingUpdate 500 c6Store "L1" c6Listing 0).history = [] ∧
    (buyNow 500 "buyer2" "Buyer Two" c6Store "L1").2 = true ∧
    (buyNow 500 "buyer2" "Buyer Two" c6Store "L1").1.history =
      [⟨"L1", some "buyer2", some "Buyer Two", some 50, 500⟩] := by
  decide

/-! ### Lemmas about listing updates -/

lemma find?_map_update (lid : String) (f : Listing → Listing)
    (hf : ∀ x, (f x).id = x.id) (ls : List Listing) :
    (ls.map (fun l => if l.id == lid then f l else l)).find? (fun l => l.id == lid) =
      (ls.find? (fun l => l.id == lid)).map f := by
  induction ls with
  | nil => rfl
  | cons a as ih =>
    simp only [List.map_cons]
    by_cases h : (a.id == lid) = true
    · have hpa : ((f a).id == lid) = true := by
        rw [hf a]
        exact h
      have e1 : (f a :: as.map (fun l => if l.id == lid then f l else l)).find?
          (fun l => l.id == lid) = some (f a) :=
        List.find?_cons_of_pos _ hpa
      have e2 : (a :: as).find? (fun l => l.id == lid) = some a :=
        List.find?_cons_of_pos as h
      rw [if_pos h, e1, e2, Option.map_some']
    · have e1 : (a :: as.map (fun l => if l.id == lid then f l else l)).find?
          (fun l => l.id == lid) =
          (as.map (fun l => if l.id == lid then f l else l)).find? (fun l => l.id == lid) :=
        List.find?_cons_of_neg _ h
      have e2 : (a :: as).find? (fun l => l.id == lid) = as.find? (fun l => l.id == lid) :=
        List.find?_cons_of_neg as h
      rw [if_neg h, e1, e2, ih]

lemma getListing_buyNowListingUpdate (now : Int) (st : Store) (lid : String)
    (l : Listing) (ns : Int) :
    getListing (buyNowListingUpdate now st lid l ns) lid =
      (getListing st lid).map (fun x =>
        { x with
          stockRemaining := some ns,
          status := if ns = 0 then ListingStatus.sold else ListingStatus.available,
          lastSalePrice := some l.price,
          lastSaleDate := some now }) := by
  unfold getListing buyNowListingUpdate updateListings
  dsimp only
  exact find?_map_update lid (fun x =>
    { x with
      stockRemaining := some ns,
      status := if ns = 0 then ListingStatus.sold else ListingStatus.available,
      lastSalePrice := some l.price,
      lastSaleDate := some now }) (fun x => rfl) st.listings

/-! ### Buy-now contract (C3) -/

/-- C3: BUY-NOW CONTRACT — corrected.  What holds: (a) the context
`buyNow` satisfies the contract exactly — on a fetched listing a
non-positive remaining stock (absent treated as 0) rejects the purchase
and leaves the store unchanged, and otherwise the call succeeds,
decrements the stock by exactly one, sets the status to `sold` exactly
when the decremented stock is 0 and to `available` otherwise, records
`lastSalePrice` as the listing's current price and `lastSaleDate` as
now, and appends exactly one sale-history record; (b) the page
`handleBuyNow` does NOT implement the contract: it performs no stock
check or decrement and records no last-sale fields, and its priceless
history insert is rejected by the NOT NULL `price` column, so for every
store it returns failure with the store unchanged. -/
theorem c3_buy_now_paths :
    (∀ (now : Int) (buyerId buyerName : String) (st : Store) (lid : String)
        (l : Listing), getListing st lid = some l →
      (l.stockRemaining.getD 0 ≤ 0 → buyNow now buyerId buyerName st lid = (st, false)) ∧
      (0 < l.stockRemaining.getD 0 →
        (buyNow now buyerId buyerName st lid).2 = true ∧
        getListing (buyNow now buyerId buyerName st lid).1 lid = some
          { l with
            stockRemaining := some (l.stockRemaining.getD 0 - 1),
            status := if l.stockRemaining.getD 0 - 1 = 0 then ListingStatus.sold
              else ListingStatus.available,
            lastSalePrice := some l.price,
            lastSaleDate := some now } ∧
        (buyNow now buyerId buyerName st lid).1.history =
          st.history ++ [⟨lid, some buyerId, some buyerName, some l.price, now⟩])) ∧
    (∀ (now : Int) (buyerId buyerName : String) (st : Store) (lid : String),
      handleBuyNow now buyerId buyerName st lid = (st, false)) := by
  constructor
  · intro now buyerId buyerName st lid l hl
    constructor
    · intro hstock
      unfold buyNow
      rw [hl]
      simp only
      rw [if_pos (by omega)]
    · intro hstock
      have hneg : ¬ (l.stockRemaining.getD 0 - 1 < 0) := by omega
      have h2 := getListing_buyNowListingUpdate now st lid l (l.stockRemaining.getD 0 - 1)
      rw [hl] at h2
      unfold buyNow
      rw [hl]
      simp only
      rw [if_neg hneg]
      exact ⟨rfl, h2, rfl⟩
  · intro now buyerId buyerName st lid
    unfold handleBuyNow
    rcases h : getListing st lid with - | l
    · rfl
    · rfl

def c3Listing : Listing :=
  ⟨"L3", 80, "s3", ListingStatus.available, some false, none, none, none,
    some 1, none, none⟩

def c3Store : Store :=
  ⟨[c3Listing], [], []⟩

/-- Witness for `c3_buy_now_paths`: the context path sells out the
single remaining unit of a concrete listing; the page path fails on the
same store and leaves it unchanged. -/
theorem c3_buy_now_paths_witness :
    ((buyNow 700 "b3" "Buyer Three" c3Store "L3").2 = true ∧
      getListing (buyNow 700 "b3" "Buyer Three" c3Store "L3").1 "L3" = some
        { c3Listing with
          stockRemaining := some (c3Listing.stockRemaining.getD 0 - 1),
          status := if c3Listing.stockRemaining.getD 0 - 1 = 0 then ListingStatus.sold
            else ListingStatus.available,
          lastSalePrice := some c3Listing.price,
          lastSaleDate := some 700 } ∧
      (buyNow 700 "b3" "Buyer Three" c3Store "L3").1.history =
        c3Store.history ++
          [⟨"L3", some "b3", some "Buyer Three", some c3Listing.price, 700⟩]) ∧
    handleBuyNow 700 "b3" "Buyer Three" c3Store "L3" = (c3Store, false) :=
  ⟨(c3_buy_now_paths.1 700 "b3" "Buyer Three" c3Store "L3" c3Listing (by decide)).2
      (by decide),
    c3_buy_now_paths.2 700 "b3" "Buyer Three" c3Store "L3"⟩

/-- C3 counterexample: on a listing with one unit in stock, the cited
page path `handleBuyNow` completes no purchase — it decrements nothing
(stock stays 1) and appends no sale-history record (zero records, not
exactly one) — contradicting the claim's contract on that path. -/
theorem c3_buy_now_counterexample :
    handleBuyNow 0 "b9" "Buyer Nine" c3Store "L3" = (c3Store, false) ∧
    (getListing c3Store "L3").map Listing.stockRemaining = some (some 1) ∧
    (handleBuyNow 0 "b9" "Buyer Nine" c3Store "L3").1.history.length = 0 ∧
    (0 : Nat) ≠ 1 := by
  decide

/-! ### Bid validation thresholds (C4) -/

def c4Listing : Listing :=
  ⟨"L4", 120, "s4", ListingStatus.available, some true, some 100, none, none,
    some 1, none, none⟩

def c4Store : Store :=
  ⟨[c4Listing], [], []⟩

def c4StaleStore : Store :=
  ⟨[c4Listing], [⟨"B0", "L4", "w", 150, 0, none, some BidStatus.open_⟩], []⟩

/-- C4: BID VALIDATION — corrected.  First part: on a fetched listing
the context `placeBid` succeeds exactly when bidding is enabled, the
amount is at least the configured minimum (absent treated as 0) and
STRICTLY above the listing's denormalized `currentBid` field (absent
treated as 0) — NOT the actual highest open bid, which this path never
reads — and a rejected call leaves the store unchanged.  Second part:
the page `handlePlaceBid` succeeds exactly when the amount is positive
and strictly above the highest fetched open bid (absent treated as 0);
it enforces no minimum bid, and a rejected call leaves the store
unchanged.  Third part: Scenario A run concretely on the context path,
on a listing with `minimumBid = 100` and no open bids, where each
success updates `currentBid`: bid 90 rejected, bid 150 accepted
(currentBid becomes 150), a second bid of 150 rejected as a tie, bid
200 accepted (currentBid becomes 200). -/
theorem c4_bid_validation_paths :
    (∀ (now : Int) (newId uid : String) (st : Store) (lid : String) (l : Listing)
        (amount : ℚ), getListing st lid = some l →
      ((placeBid now newId uid st lid amount).2 = true ↔
        l.allowBidding = some true ∧ l.minimumBid.getD 0 ≤ amount ∧
          l.currentBid.getD 0 < amount) ∧
      ((placeBid now newId uid st lid amount).2 = false →
        (placeBid now newId uid st lid amount).1 = st)) ∧
    (∀ (now : Int) (newId uid : String) (st : Store) (lid : String) (amount : ℚ)
        (expiryDays : Int),
      ((handlePlaceBid now newId uid st lid amount expiryDays).2 = true ↔
        0 < amount ∧ (match maxBidOf (openBidsFor st lid) with
          | some b => b.amount
          | none => 0) < amount) ∧
      ((handlePlaceBid now newId uid st lid amount expiryDays).2 = false →
        (handlePlaceBid now newId uid st lid amount expiryDays).1 = st)) ∧
    (placeBid 0 "b1" "u" c4Store "L4" 90 = (c4Store, false) ∧
      (placeBid 0 "b2" "u" c4Store "L4" 150).2 = true ∧
      (getListing (placeBid 0 "b2" "u" c4Store "L4" 150).1 "L4").map Listing.currentBid =
        some (some 150) ∧
      placeBid 0 "b3" "u" (placeBid 0 "b2" "u" c4Store "L4" 150).1 "L4" 150 =
        ((placeBid 0 "b2" "u" c4Store "L4" 150).1, false) ∧
      (placeBid 0 "b4" "u" (placeBid 0 "b2" "u" c4Store "L4" 150).1 "L4" 200).2 = true ∧
      (getListing (placeBid 0 "b4" "u"
          (placeBid 0 "b2" "u" c4Store "L4" 150).1 "L4" 200).1 "L4").map
        Listing.currentBid = some (some 200)) := by
  constructor
  · intro now newId uid st lid l amount hl
    unfold placeBid
    rw [hl]
    simp only
    by_cases hab : (!(l.allowBidding == some true)) = true
    · rw [if_pos hab]
      have hab' : ¬ l.allowBidding = some true := by
        simpa using hab
      constructor
      · constructor
        · intro hfalse
          exact absurd hfalse (by simp)
        · rintro ⟨ha, -, -⟩
          exact absurd ha hab'
      · intro _
        rfl
    · rw [if_neg hab]
      have hab' : l.allowBidding = some true := by
        simpa using hab
      by_cases hv : amount < l.minimumBid.getD 0 ∨ amount ≤ l.currentBid.getD 0
      · rw [if_pos hv]
        constructor
        · constructor
          · intro hfalse
            exact absurd hfalse (by simp)
          · rintro ⟨-, hmin, hcur⟩
            rcases hv with hv | hv
            · exact absurd hmin (not_le.mpr hv)
            · exact absurd hcur (not_lt.mpr hv)
        · intro _
          rfl
      · rw [if_neg hv]
        rw [not_or, not_lt, not_le] at hv
        constructor
        · constructor
          · intro _
            exact ⟨hab', hv.1, hv.2⟩
          · intro _
            rfl
        · intro hfalse
          exact absurd hfalse (by simp)
  · constructor
    · intro now newId uid st lid amount d
      unfold handlePlaceBid
      by_cases h0 : amount ≤ 0
      · rw [if_pos h0]
        constructor
        · constructor
          · intro hfalse
            exact absurd hfalse (by simp)
          · rintro ⟨hpos, -⟩
            exact absurd hpos (not_lt.mpr h0)
        · intro _
          rfl
      · rw [if_neg h0]
        simp only
        by_cases hh : amount ≤ (match maxBidOf (openBidsFor st lid) with
            | some b => b.amount
            | none => 0)
        · rw [if_pos hh]
          constructor
          · constructor
            · intro hfalse
              exact absurd hfalse (by simp)
            · rintro ⟨-, hgt⟩
              exact absurd hgt (not_lt.mpr hh)
          · intro _
            rfl
        · rw [if_neg hh]
          constructor
          · constructor
            · intro _
              exact ⟨not_le.mp h0, not_le.mp hh⟩
            · intro _
              rfl
          · intro hfalse
            exact absurd hfalse (by simp)
    · decide

/-- Witness for `c4_bid_validation_paths`: both validation
characterizations instantiated on the concrete Scenario A listing at
amount 130. -/
theorem c4_bid_validation_paths_witness :
    (((placeBid 0 "W" "u" c4Store "L4" 130).2 = true ↔
        c4Listing.allowBidding = some true ∧ c4Listing.minimumBid.getD 0 ≤ 130 ∧
          c4Listing.currentBid.getD 0 < 130) ∧
      ((placeBid 0 "W" "u" c4Store "L4" 130).2 = false →
        (placeBid 0 "W" "u" c4Store "L4" 130).1 = c4Store)) ∧
    (((handlePlaceBid 0 "W2" "u" c4Store "L4" 130 7).2 = true ↔
        (0 : ℚ) < 130 ∧ (match maxBidOf (openBidsFor c4Store "L4") with
          | some b => b.amount
          | none => 0) < 130) ∧
      ((handlePlaceBid 0 "W2" "u" c4Store "L4" 130 7).2 = false →
        (handlePlaceBid 0 "W2" "u" c4Store "L4" 130 7).1 = c4Store)) :=
  ⟨c4_bid_validation_paths.1 0 "W" "u" c4Store "L4" c4Listing 130 (by decide),
    c4_bid_validation_paths.2.1 0 "W2" "u" c4Store "L4" 130 7⟩

/-- C4 counterexample: the context `placeBid` admits a bid of 100 on a
listing carrying an open bid of 150 whose `currentBid` mirror is stale
(absent), although 100 is below the current highest open bid; and the
page `handlePlaceBid` admits a bid of 90 on a listing with
`minimumBid = 100` and no open bids, although the claim has
`placeBid(90)` rejected there. -/
theorem c4_bid_validation_counterexample :
    (maxBidOf (openBidsFor c4StaleStore "L4")).map Bid.amount = some 150 ∧
    (100 : ℚ) ≤ 150 ∧
    (placeBid 0 "X" "u2" c4StaleStore "L4" 100).2 = true ∧
    c4Listing.minimumBid = some 100 ∧ (90 : ℚ) < 100 ∧
    (handlePlaceBid 0 "Y" "u3" c4Store "L4" 90 7).2 = true := by
  decide

/-! ### Effects of a successful bid placement (C5) -/

def c5Listing : Listing :=
  ⟨"L5", 120, "s5", ListingStatus.available, some true, some 100, none, none,
    some 1, none, none⟩

def c5Store : Store :=
  ⟨[c5Listing], [], []⟩

/-- C5: SUCCESSFUL BID EFFECTS — corrected.  What each path actually
does: (a) a successful context `placeBid` appends a bid row carrying NO
`expires_at` and NO `status` value (it inserts only reservation_id,
user_id and amount, and takes no expiry parameter at all) and updates the
listing's `currentBid` to the amount; (b) a successful page
`handlePlaceBid` appends a bid row with `status = open` and
`expiresAt = now + expiryDays` days, but leaves the `reservations` rows —
including `currentBid` — untouched.  No code path does both of the
claim's effects. -/
theorem c5_bid_insert_effects :
    (∀ (now : Int) (newId uid : String) (st : Store) (lid : String) (l : Listing)
        (amount : ℚ), getListing st lid = some l →
      (placeBid now newId uid st lid amount).2 = true →
        (placeBid now newId uid st lid amount).1.bids =
          st.bids ++ [⟨newId, lid, uid, amount, now, none, none⟩] ∧
        getListing (placeBid now newId uid st lid amount).1 lid =
          some { l with currentBid := some amount }) ∧
    (∀ (now : Int) (newId uid : String) (st : Store) (lid : String) (amount : ℚ)
        (expiryDays : Int),
      (handlePlaceBid now newId uid st lid amount expiryDays).2 = true →
        (handlePlaceBid now newId uid st lid amount expiryDays).1.bids =
          st.bids ++ [⟨newId, lid, uid, amount, now, some (now + expiryDays * 86400000),
            some BidStatus.open_⟩] ∧
        (handlePlaceBid now newId uid st lid amount expiryDays).1.listings =
          st.listings) := by
  constructor
  · intro now newId uid st lid l amount hl hsucc
    by_cases hab : (!(l.allowBidding == some true)) = true
    · exfalso
      unfold placeBid at hsucc
      rw [hl] at hsucc
      simp only at hsucc
      rw [if_pos hab] at hsucc
      exact absurd hsucc (by simp)
    · by_cases hv : amount < l.minimumBid.getD 0 ∨ amount ≤ l.currentBid.getD 0
      · exfalso
        unfold placeBid at hsucc
        rw [hl] at hsucc
        simp only at hsucc
        rw [if_neg hab, if_pos hv] at hsucc
        exact absurd hsucc (by simp)
      · have heq : placeBid now newId uid st lid amount =
            (updateListings
              { st with bids := st.bids ++ [⟨newId, lid, uid, amount, now, none, none⟩] }
              (fun x => x.id == lid) (fun x => { x with currentBid := some amount }),
              true) := by
          unfold placeBid
          rw [hl]
          simp only
          rw [if_neg hab, if_neg hv]
        rw [heq]
        constructor
        · rfl
        · have h2 := find?_map_update lid (fun x => { x with currentBid := some amount })
            (fun x => rfl) st.listings
          unfold getListing at hl
          rw [hl] at h2
          exact h2
  · intro now newId uid st lid amount d hsucc
    unfold handlePlaceBid at hsucc ⊢
    by_cases h0 : amount ≤ 0
    · rw [if_pos h0] at hsucc
      exact absurd hsucc (by simp)
    · rw [if_neg h0] at hsucc ⊢
      simp only at hsucc ⊢
      by_cases hh : amount ≤ (match maxBidOf (openBidsFor st lid) with
          | some b => b.amount
          | none => 0)
      · rw [if_pos hh] at hsucc
        exact absurd hsucc (by simp)
      · rw [if_neg hh]
        exact ⟨rfl, rfl⟩

/-- Witness for `c5_bid_insert_effects`: both parts instantiated on a
concrete fresh listing at amount 150, expiry 7 days. -/
theorem c5_bid_insert_effects_witness :
    ((placeBid 0 "B" "u" c5Store "L5" 150).1.bids =
        c5Store.bids ++ [⟨"B", "L5", "u", 150, 0, none, none⟩] ∧
      getListing (placeBid 0 "B" "u" c5Store "L5" 150).1 "L5" =
        some { c5Listing with currentBid := some 150 }) ∧
    ((handlePlaceBid 0 "B2" "u2" c5Store "L5" 150 7).1.bids =
        c5Store.bids ++ [⟨"B2", "L5", "u2", 150, 0, some (0 + 7 * 86400000),
          some BidStatus.open_⟩] ∧
      (handlePlaceBid 0 "B2" "u2" c5Store "L5" 150 7).1.listings = c5Store.listings) :=
  ⟨c5_bid_insert_effects.1 0 "B" "u" c5Store "L5" c5Listing 150 (by decide) (by decide),
    c5_bid_insert_effects.2 0 "B2" "u2" c5Store "L5" 150 7 (by decide)⟩

/-- C5 counterexample: a successful context `placeBid` inserts its bid
row with no `expiresAt` (there is no `now + expiresInDays` to speak of:
the function takes no expiry argument) and no `status`; a successful
page `handlePlaceBid` leaves the listing rows — hence `currentBid` —
unchanged, so `currentBid` stays absent instead of becoming the new
highest open bid amount of 150. -/
theorem c5_bid_insert_effects_counterexample :
    (placeBid 0 "B" "u" c5Store "L5" 150).2 = true ∧
    (placeBid 0 "B" "u" c5Store "L5" 150).1.bids =
      [⟨"B", "L5", "u", 150, 0, none, none⟩] ∧
    (none : Option Int) ≠ some (0 + 7 * 86400000) ∧
    (none : Option BidStatus) ≠ some BidStatus.open_ ∧
    (handlePlaceBid 0 "B2" "u2" c5Store "L5" 150 7).2 = true ∧
    (handlePlaceBid 0 "B2" "u2" c5Store "L5" 150 7).1.listings = [c5Listing] ∧
    c5Listing.currentBid = none ∧ (none : Option ℚ) ≠ some 150 := by
  decide

/-! ### Market statistics (C9) -/

lemma foldl_max_replicate (P : ℚ) (n : Nat) : (List.replicate n P).foldl max P = P := by
  induction n with
  | zero => rfl
  | succ n ih => simpa [List.replicate_succ, max_self] using ih

lemma foldl_min_replicate (P : ℚ) (n : Nat) : (List.replicate n P).foldl min P = P := by
  induction n with
  | zero => rfl
  | succ n ih => simpa [List.replicate_succ, min_self] using ih

lemma head?_map_const (P : ℚ) (s : SaleRow) (rest : List SaleRow) :
    ((s :: rest).map (fun _ => P)).head? = some P := by
  rw [List.map_cons]
  rfl

lemma mathMax_map_const (P : ℚ) (s : SaleRow) (rest : List SaleRow) :
    mathMax ((s :: rest).map (fun _ => P)) = some P := by
  rw [List.map_cons, List.map_const']
  show some ((List.replicate rest.length P).foldl max P) = some P
  rw [foldl_max_replicate]

lemma mathMin_map_const (P : ℚ) (s : SaleRow) (rest : List SaleRow) :
    mathMin ((s :: rest).map (fun _ => P)) = some P := by
  rw [List.map_cons, List.map_const']
  show some ((List.replicate rest.length P).foldl min P) = some P
  rw [foldl_min_replicate]

/-- The mean of a nonempty constant price list is that price. -/
lemma avg_map_const (P : ℚ) (g : List SaleRow) (hg : g ≠ []) :
    (g.map (fun _ => P)).sum / ((g.map (fun _ => P)).length : ℚ) = P := by
  rw [List.map_const', List.sum_replicate, List.length_replicate, nsmul_eq_mul]
  exact mul_div_cancel_left₀ P (Nat.cast_ne_zero.mpr (by simpa using hg))

/-- The page's thirty-day-average expression over a constant price list,
as a function of the filtered record list. -/
lemma avg_if_const (P : ℚ) (F : List SaleRow) :
    (if (F.map (fun _ => P)).length ≠ 0 then
        some ((F.map (fun _ => P)).sum / ((F.map (fun _ => P)).length : ℚ))
      else none) =
      if F.isEmpty then none else some P := by
  cases F with
  | nil => simp
  | cons f fs =>
    rw [if_pos (by simp), if_neg (by simp)]
    rw [avg_map_const P (f :: fs) (by simp)]

/-- C9: MARKET STATS — corrected.  What `fetchReservation` actually
computes: because the sales query selects the JOINED parent listing's
current price (`reservation:reservation_id(price)`) instead of each
record's own stored price, every formatted sale price equals the
listing's current price `P`.  Hence with no records the initial
all-null stats stand, and with records: `lastSalePrice = P`,
`highPrice = lowPrice = P`, `thirtyDayAvg = P` when some record lies in
the 30-day window and null otherwise, and `salesCount` the record count.
The result is a function of the record set AND the listing's current
price, not of the record prices. -/
theorem c9_market_stats_joined_price (now : Int) (P : ℚ) (sales : List SaleRow) :
    (sales = [] → computeStatsPage now P sales = initialStats) ∧
    (sales ≠ [] →
      computeStatsPage now P sales =
        { lastSalePrice := some P,
          thirtyDayAvg :=
            if (sales.filter (fun s => decide (now - 30 * 86400000 ≤ s.createdAt))).isEmpty
              then none
            else some P,
          highPrice := some P,
          lowPrice := some P,
          salesCount := sales.length }) := by
  constructor
  · intro h
    subst h
    rfl
  · intro h
    obtain ⟨s, rest, rfl⟩ := List.exists_cons_of_ne_nil h
    unfold computeStatsPage
    rw [if_neg (by simp)]
    simp only [MarketStats.mk.injEq]
    exact ⟨head?_map_const P s rest,
      avg_if_const P ((s :: rest).filter (fun x => decide (now - 30 * 86400000 ≤ x.createdAt))),
      mathMax_map_const P s rest, mathMin_map_const P s rest, trivial⟩

def c9Sales : List SaleRow :=
  [⟨"h1", "L9", -1000, 200⟩, ⟨"h2", "L9", -2000, 100⟩]

/-- Witness for `c9_market_stats_joined_price` on two concrete records
under a listing currently priced 150. -/
theorem c9_market_stats_joined_price_witness :
    computeStatsPage 0 150 c9Sales =
      { lastSalePrice := some 150,
        thirtyDayAvg :=
          if (c9Sales.filter (fun s => decide ((0 : Int) - 30 * 86400000 ≤ s.createdAt))).isEmpty
            then none
          else some 150,
        highPrice := some 150,
        lowPrice := some 150,
        salesCount := c9Sales.length } :=
  (c9_market_stats_joined_price 0 150 c9Sales).2 (by decide)

/-- C9 counterexample: with stored record prices 200 (most recent) and
100 under a listing currently priced 150, the page computes
`lastSalePrice = 150` where the spec's `computeMarketStats` demands the
most recent record's price 200; and the page result changes when only
the listing's current price changes, so it is not a function of the
record set alone. -/
theorem c9_market_stats_counterexample :
    (computeStatsPage 0 150 c9Sales).lastSalePrice = some 150 ∧
    (computeMarketStatsSpec 0 c9Sales).lastSalePrice = some 200 ∧
    (some (150 : ℚ) : Option ℚ) ≠ some 200 ∧
    (computeMarketStatsSpec 0 c9Sales).highPrice = some 200 ∧
    (computeStatsPage 0 150 c9Sales).highPrice = some 150 ∧
    computeStatsPage 0 150 c9Sales ≠ computeStatsPage 0 999 c9Sales := by
  decide

/-! ### Conversion pair round trip (C10) -/

/-- C10: CONVERSION ROUND TRIP — confirmed.  For a `Reservation` value
whose optional fields are all defined (expressed by building the value
from plain field values, every field wrapped in `some`), converting to a
database row with `formatReservationToDB` and back with
`formatReservationFromDB` restores every mapped field: restaurantName,
location, cuisine, date, time, partySize, price, originalPrice,
sellerId, status, description, imageUrl, popularity, allowBidding,
minimumBid, currentBid, bidEndTime, stockRemaining, lastSalePrice,
lastSaleDate, latitude and longitude. -/
theorem c10_conversion_round_trip (rn loc cui : String) (dt : Int) (tm : String)
    (ps : Int) (pr op : ℚ) (sid : String) (stt : ListingStatus) (desc iurl : String)
    (pop : Int) (ab : Bool) (mb cb : ℚ) (bet sr : Int) (lsp : ℚ) (lsd : Int)
    (lat lng : ℚ) :
    formatReservationFromDB (formatReservationToDB
      ⟨some rn, some loc, some cui, some dt, some tm, some ps, some pr, some op,
        some sid, some stt, some desc, some iurl, some pop, some ab, some mb, some cb,
        some bet, some sr, some lsp, some lsd, some lat, some lng⟩) =
      ⟨some rn, some loc, some cui, some dt, some tm, some ps, some pr, some op,
        some sid, some stt, some desc, some iurl, some pop, some ab, some mb, some cb,
        some bet, some sr, some lsp, some lsd, some lat, some lng⟩ :=
  rfl

end ResSwaps
